import Mathlib

/-!
Shallow embedding of the authentication core of the fhirlesson39 demo client:
the loopback code-capture handler and login/logout flow of `src/smart_auth.py`,
the token-payload decode block of `src/fhir_textual.py`, and the request
logging of `src/fhir_client.py`.  State is passed explicitly; exceptions of
the Python code are modelled by result constructors / `Except`.
-/

/-- Embeds Python's `str.split` with a one-character separator, specialised
to the dot used on tokens (`self.token.split(".")`, src/fhir_textual.py line
139): splitting the character list on `'.'`; the empty string yields one
empty segment, and a string with k dots yields k+1 segments, exactly as in
Python. -/
def pySplitDot : List Char → List (List Char)
  | [] => [[]]
  | c :: cs =>
    match pySplitDot cs with
    | [] => if c = '.' then [[], [c]] else [[c]]
    | h :: t => if c = '.' then [] :: h :: t else (c :: h) :: t

/-- Python `s.split(".")` on a string. -/
def pySplit (s : String) : List String :=
  (pySplitDot s.data).map String.mk

namespace SmartAuthPy

/-- Default configuration constants of `src/smart_auth.py` (lines 45-51):
the values used when the corresponding environment variables are unset. -/
def CLIENT_ID : String := "fIv1uGKhCXanH4iVcTNagE3eFLFIfPDb"

/-- Default FHIR audience (`FHIR_BASE`, src/smart_auth.py line 48). -/
def FHIR_BASE : String :=
  "https://iris.rpaihtnv03ms.sandbox-eng-paas.isccloud.io/csp/healthshare/fhir/fhir/r4a"

/-- Default redirect URI (`REDIRECT_URI`, src/smart_auth.py line 49). -/
def REDIRECT_URI : String := "http://127.0.0.1:8900/cb"

/-- Default scope string (`SCOPE`, src/smart_auth.py line 50). -/
def SCOPE : String := "openid profile user/*.*"

/-- An HTTP GET request as seen by the loopback listener: the path portion of
`self.path` and the query parameters as parsed by
`parse_qs(urlparse(self.path).query)`, first value per key
(`params.get(k, [None])[0]`). -/
structure HttpRequest where
  path : String
  query : List (String × String)

/-- The response written back by the handler. -/
structure HttpResponse where
  status : Nat
  body : String

/-- Static confirmation body written by `_CodeHandler.do_GET`
(src/smart_auth.py line 66). -/
def confirmationBody : String :=
  "<html><body><h2>You may now close this tab.</h2></body></html>"

/-- Embeds `_CodeHandler.do_GET` (src/smart_auth.py lines 64-68).  For every
incoming request it sends status 200 with the static confirmation body, then
stores `params.get("code", [None])[0]` on the server object.  The function
returns the response together with the value stored into `self.server.code`.
Note that the handler inspects neither `self.path`'s path portion nor any
`state`/`error` parameter: only the `code` query parameter is read. -/
def do_GET (req : HttpRequest) : HttpResponse × Option String :=
  ({ status := 200, body := confirmationBody }, req.query.lookup "code")

/-- Embeds the wait loop of `SmartAuth.login` (src/smart_auth.py lines
113-115): `while getattr(srv, "code", None) is None: srv.handle_request()`.
Each `handle_request()` consumes one incoming request and runs `do_GET` on
it; the loop exits exactly when a handled request stored a non-`None` code.
The argument is the finite trace of requests delivered to the listener;
`some c` means the loop exited with code `c`, `none` means the trace was
exhausted with the loop still blocked inside `handle_request()` (the server
has `timeout = None`, so nothing else can end the wait). -/
def awaitCode : List HttpRequest → Option String
  | [] => none
  | r :: rs =>
    match (do_GET r).2 with
    | some c => some c
    | none => awaitCode rs

/-- Session state of a `SmartAuth` instance: the three fields set by
`__init__` (src/smart_auth.py lines 81-83). -/
structure Session where
  token : Option String
  id_token : Option String
  patient_ref : Option String

/-- Session state at process start: all three fields are `None`
(src/smart_auth.py lines 81-83). -/
def initSession : Session :=
  { token := none, id_token := none, patient_ref := none }

/-- Outcome of constructing `_OneShotTCPServer((host, port), _CodeHandler)`:
either the bind succeeds, or the port is taken and `OSError` propagates. -/
inductive BindOutcome
  | ok
  | portInUse

/-- Outcome of `oauth.fetch_token(...)` (src/smart_auth.py lines 121-127):
either the call raises, or it returns the deserialized JSON body, modelled
as an association list of its string fields. -/
inductive ExchangeOutcome
  | raised
  | ok (resp : List (String × String))

/-- Result of a `SmartAuth.login` call as seen by the caller. -/
inductive LoginOutcome
  | bindError
  | stillWaiting
  | exchangeError
  | missingAccessToken
  | success (token : String)

/-- Embeds `SmartAuth.login` (src/smart_auth.py lines 89-138) from the
creation of the one-shot server onwards.  `tokenEndpoint` models the
behaviour of `oauth.fetch_token` at the token endpoint as a function of the
`code` value that `login` sends to it.  Stages, in source order:
bind (`with _OneShotTCPServer(...)`), the `while ... handle_request()` wait
loop, the `fetch_token` call inside `try`, then the two session assignments
`self.token = token_dict["access_token"]` (a missing key raises `KeyError`
before any assignment happens) and `self.id_token = token_dict.get("id_token")`.
On every exception path the session is returned as it was. -/
def login (s : Session) (bind : BindOutcome) (reqs : List HttpRequest)
    (tokenEndpoint : String → ExchangeOutcome) : Session × LoginOutcome :=
  match bind with
  | .portInUse => (s, .bindError)
  | .ok =>
    match awaitCode reqs with
    | none => (s, .stillWaiting)
    | some code =>
      match tokenEndpoint code with
      | .raised => (s, .exchangeError)
      | .ok resp =>
        match resp.lookup "access_token" with
        | none => (s, .missingAccessToken)
        | some tok =>
          ({ s with token := some tok, id_token := resp.lookup "id_token" },
            .success tok)

/-- Embeds `SmartAuth.logout` (src/smart_auth.py lines 140-146): the three
session fields are set to `None` (the subsequent `webbrowser.open` has no
effect on the session). -/
def logout (s : Session) : Session :=
  { s with token := none, id_token := none, patient_ref := none }

/-- Embeds `SmartAuth._mask` (src/smart_auth.py lines 165-167):
`return tok[:n] + "…" if tok else "<none>"`.  A falsy (empty) token yields
the literal `"<none>"`; otherwise the first `n` characters (all of them when
the token is shorter) followed by the ellipsis character. -/
def _mask (tok : String) (n : Nat := 8) : String :=
  if tok = "" then "<none>" else tok.take n ++ "…"

/-- Embeds `SmartAuth._extract_patient` (src/smart_auth.py lines 153-163).
The module's `from jose import jwt` import is commented out (line 34), so
when `self.token` is truthy the call `jwt.get_unverified_claims(self.token)`
raises `NameError` for every token value — three-segment or not — and the
surrounding `except Exception` catches it, logs `"Access parse failed"` and
returns `None` before `self.patient_ref` is ever assigned.  When `self.token`
is falsy the function falls off its end and implicitly returns `None`.
`Except.ok` records that no exception escapes to the caller; the second
component is the (unchanged) session. -/
def _extract_patient (s : Session) : Except String (Option String) × Session :=
  match s.token with
  | some tok =>
    if tok = "" then (Except.ok none, s) else (Except.ok none, s)
  | none => (Except.ok none, s)

/-- Log lines emitted by `SmartAuth.login` on a successful exchange
(src/smart_auth.py lines 117, 130, 131): the authorization code, the full
token response (`json.dumps(token_dict, indent=2)`, passed here as
`rawResponse`), and the masked access token — all at `logger.info`. -/
def loginSuccessLogs (code rawResponse tok : String) : List String :=
  ["Authorization code received: " ++ code,
   "Full token response: " ++ rawResponse,
   "Access token acquired (masked): " ++ _mask tok]

/-- Client configuration as consumed by the authorization-URL construction
(src/smart_auth.py lines 93-106). -/
structure OAuthConfig where
  client_id : String
  redirect_uri : String
  scope : String
  audience : String

/-- The default configuration of `src/smart_auth.py`. -/
def defaultConfig : OAuthConfig :=
  { client_id := CLIENT_ID, redirect_uri := REDIRECT_URI,
    scope := SCOPE, audience := FHIR_BASE }

/-- Models the query parameters of the URL returned by authlib's
`OAuth2Session.create_authorization_url` as invoked by `SmartAuth.login`
(src/smart_auth.py lines 93-107) and `SmartFHIRApp.smart_login`
(src/fhir_textual.py lines 99-111).  The session is constructed with
`code_challenge_method="S256"`, so authlib (>= 1.2, per the source comments)
generates a code verifier, derives the S256 challenge, generates a `state`
token, and assembles the query via `prepare_grant_uri`, which always emits
`response_type`/`client_id`/`state` and emits `redirect_uri` and `scope`
only when they are non-empty; the extra keyword arguments `audience` and
`prompt="consent"` are appended.  The generated `state` and derived
`challenge` are passed in as parameters (they are random per attempt). -/
def create_authorization_url (cfg : OAuthConfig) (challenge st : String) :
    List (String × String) :=
  [("response_type", "code"), ("client_id", cfg.client_id)]
  ++ (if cfg.redirect_uri = "" then [] else [("redirect_uri", cfg.redirect_uri)])
  ++ (if cfg.scope = "" then [] else [("scope", cfg.scope)])
  ++ [("state", st),
      ("code_challenge", challenge),
      ("code_challenge_method", "S256"),
      ("audience", cfg.audience),
      ("prompt", "consent")]

end SmartAuthPy

namespace FhirClientPy

/-- Embeds the request-context log lines of `search_patients`
(src/fhir_client.py lines 38-39): `logger.info("FHIR GET %s", url)` and
`logger.info("OAuth token (masked): %s", token)` — the second passes the
raw `token` argument unmodified, although the docstring says the token is
logged masked. -/
def searchPatientsRequestLogs (url token : String) : List String :=
  ["FHIR GET " ++ url, "OAuth token (masked): " ++ token]

end FhirClientPy

namespace FhirTextualPy

/-- Malformed-token message of `SmartFHIRApp.smart_login`
(src/fhir_textual.py line 149). -/
def malformedMsg : String := "[red]Access token is not a JWT or is malformed.[/red]"

/-- Embeds the token-payload decode block of `SmartFHIRApp.smart_login`
(src/fhir_textual.py lines 139-149): the token is split on `"."`; only when
exactly three segments result is the base64/JSON decode of the middle
segment attempted (its outcome, produced by the `base64`/`json` libraries,
is passed in as `decodeOutcome`; an exception there is caught and logged);
otherwise the malformed-token message is written and no decode happens.
Returns the log lines written by the block; no exception escapes it. -/
def decodeBlockLogs (tok : String) (decodeOutcome : Except String String) :
    List String :=
  let parts := pySplit tok
  if parts.length = 3 then
    match decodeOutcome with
    | .ok pretty => ["[green]Decoded token payload:[/green]", pretty]
    | .error e => ["[red]Failed to decode token:[/red] " ++ e]
  else
    [malformedMsg]

end FhirTextualPy

/-- Boolean substring test used to state the logging claims: `needle` occurs
contiguously inside `hay`. -/
def strContains (hay needle : String) : Bool :=
  hay.data.tails.any fun t => needle.data.isPrefixOf t

open SmartAuthPy FhirClientPy FhirTextualPy

/-- C1: the claim says a redirect whose `state` differs from the issued one
yields `StateMismatch` and the code is never returned to the caller nor sent
to the token endpoint.  On the code this fails: `do_GET` never reads the
`state` parameter, so for EVERY received state value — matching or not — the
wait loop hands the code `ABC123` to `login`, and `login` sends it to the
token endpoint (witnessed by the endpoint-dependent token `tok-for-ABC123`
landing in the success outcome). -/
theorem state_never_verified :
    ∀ (recvState : String) (s : Session),
      awaitCode [⟨"/cb", [("code", "ABC123"), ("state", recvState)]⟩]
        = some "ABC123" ∧
      (login s BindOutcome.ok
          [⟨"/cb", [("code", "ABC123"), ("state", recvState)]⟩]
          (fun c => ExchangeOutcome.ok [("access_token", "tok-for-" ++ c)])).2
        = LoginOutcome.success "tok-for-ABC123" := by
  intro recvState s
  exact ⟨rfl, rfl⟩

/-- C2: the claim says no log record ever contains the full raw token.  On
the code this fails: `search_patients` (src/fhir_client.py line 39) logs the
raw 20-character token inside the line `"OAuth token (masked): …"` although
its docstring says the token is masked, and `SmartAuth.login`
(src/smart_auth.py line 130) logs the full token response at INFO level. -/
theorem raw_token_logged :
    (FhirClientPy.searchPatientsRequestLogs
        "https://fhir.example.org/Patient?_maxresults=10"
        "tok_0123456789ABCDEF").any
      (fun line => strContains line "tok_0123456789ABCDEF") = true ∧
    (SmartAuthPy.loginSuccessLogs "CODE1"
        "\x7b\"access_token\": \"tok_0123456789ABCDEF\"\x7d"
        "tok_0123456789ABCDEF").any
      (fun line => strContains line "tok_0123456789ABCDEF") = true ∧
    ("tok_0123456789ABCDEF" : String).length = 20 :=
  ⟨by decide, by decide, by decide⟩

/-- C3: the claim says the wait returns a `Timeout` result when no redirect
arrives.  On the code this fails: the `while` loop's only exit condition is
a captured `code`; over any finite trace of requests none of which carries a
`code` parameter, `awaitCode` yields no result — the listener is still
blocked inside `handle_request()` (the server's `timeout` is `None`) and no
`Timeout` value exists anywhere in the flow. -/
theorem wait_has_no_timeout :
    ∀ (reqs : List HttpRequest),
      (∀ r ∈ reqs, r.query.lookup "code" = none) → awaitCode reqs = none := by
  intro reqs
  induction reqs with
  | nil => intro _; rfl
  | cons r rs ih =>
    intro h
    have hr := h r (List.mem_cons_self r rs)
    have hrs : ∀ x ∈ rs, x.query.lookup "code" = none :=
      fun x hx => h x (List.mem_cons_of_mem r hx)
    simp [awaitCode, do_GET, hr]
    exact ih hrs

/-- C3 witness: a favicon probe and an error redirect carry no code, and the
wait does not end. -/
theorem wait_has_no_timeout_witness :
    (∀ r ∈ [(⟨"/favicon.ico", []⟩ : HttpRequest),
        ⟨"/cb", [("error", "access_denied")]⟩], r.query.lookup "code" = none) ∧
    awaitCode [(⟨"/favicon.ico", []⟩ : HttpRequest),
        ⟨"/cb", [("error", "access_denied")]⟩] = none :=
  ⟨by decide, wait_has_no_timeout _ (by decide)⟩

/-- C4: a login attempt that does not reach the success outcome — bind
failure, no fulfilled redirect, a raising token exchange, or a token
response without `access_token` — leaves the session exactly as it was:
in the source every fallible operation happens before the first session
assignment. -/
theorem failed_login_preserves_session :
    ∀ (s : Session) (bind : BindOutcome) (reqs : List HttpRequest)
      (tokenEndpoint : String → ExchangeOutcome),
      (∀ tok, (login s bind reqs tokenEndpoint).2 ≠ LoginOutcome.success tok) →
      (login s bind reqs tokenEndpoint).1 = s := by
  intro s bind reqs te h
  cases bind with
  | portInUse => rfl
  | ok =>
    cases hc : awaitCode reqs with
    | none => simp [login, hc]
    | some code =>
      cases hte : te code with
      | raised => simp [login, hc, hte]
      | ok resp =>
        cases hat : resp.lookup "access_token" with
        | none => simp [login, hc, hte, hat]
        | some tok =>
          exact absurd
            (show (login s BindOutcome.ok reqs te).2 = LoginOutcome.success tok
              by simp [login, hc, hte, hat])
            (h tok)

/-- C4 witness: a populated session survives an exchange that raises. -/
theorem failed_login_preserves_session_witness :
    (login ⟨some "oldtok", some "oldid", some "Patient/1"⟩ BindOutcome.ok
        [⟨"/cb", [("code", "ABC123")]⟩] (fun _ => ExchangeOutcome.raised)).1
      = ⟨some "oldtok", some "oldid", some "Patient/1"⟩ :=
  failed_login_preserves_session _ _ _ _
    (fun _ hh => LoginOutcome.noConfusion hh)

/-- C5 counterexample: the claim says a request on a path other than the
configured `/cb` receives a 404 and is not treated as the redirect.  On the
code, a request on a foreign path is answered 200 and — because it carries a
`code` parameter — fulfils the wait. -/
theorem foreign_path_fulfils :
    (do_GET ⟨"/definitely-not-the-callback", [("code", "XYZ99")]⟩).1.status
      = 200 ∧
    (do_GET ⟨"/definitely-not-the-callback", [("code", "XYZ99")]⟩).1.status
      ≠ 404 ∧
    awaitCode [⟨"/definitely-not-the-callback", [("code", "XYZ99")]⟩]
      = some "XYZ99" :=
  ⟨rfl, by decide, rfl⟩

/-- C5 amended: the handler answers 200 with the confirmation body to every
request regardless of its path; a request carrying a `code` query parameter
fulfils the wait whatever its path, and a request without one leaves the
listener waiting. -/
theorem any_path_served_200 :
    ∀ (p : String) (q : List (String × String)) (rs : List HttpRequest),
      (do_GET ⟨p, q⟩).1.status = 200 ∧
      (∀ c, q.lookup "code" = some c → awaitCode (⟨p, q⟩ :: rs) = some c) ∧
      (q.lookup "code" = none → awaitCode (⟨p, q⟩ :: rs) = awaitCode rs) := by
  intro p q rs
  refine ⟨rfl, ?_, ?_⟩
  · intro c hc
    simp [awaitCode, do_GET, hc]
  · intro hc
    simp [awaitCode, do_GET, hc]

/-- C5 amended witness: a request on a foreign path carrying a code is
served 200 and fulfils the wait. -/
theorem any_path_served_200_witness :
    ([("code", "K")] : List (String × String)).lookup "code" = some "K" ∧
    (do_GET ⟨"/weird", [("code", "K")]⟩).1.status = 200 ∧
    awaitCode [⟨"/weird", [("code", "K")]⟩] = some "K" :=
  ⟨by decide, (any_path_served_200 "/weird" [("code", "K")] []).1,
    (any_path_served_200 "/weird" [("code", "K")] []).2.1 "K" (by decide)⟩

/-- C6 counterexample: the claim says a redirect carrying
`error`/`error_description` terminates the flow with a `ProviderError`
surfacing both values.  On the code, after such a redirect the wait has
produced no result — the login flow is still waiting, and its outcome type
carries no provider-error value at all. -/
theorem error_redirect_not_surfaced :
    awaitCode [⟨"/cb", [("error", "access_denied"),
        ("error_description", "The user denied the request")]⟩] = none ∧
    (login initSession BindOutcome.ok
        [⟨"/cb", [("error", "access_denied"),
            ("error_description", "The user denied the request")]⟩]
        (fun _ => ExchangeOutcome.raised)).2 = LoginOutcome.stillWaiting :=
  ⟨rfl, rfl⟩

/-- C6 amended: a redirect on the configured path carrying any
`error`/`error_description` pair is answered 200, its error parameters are
never read, and the listener keeps waiting exactly as if the request had not
happened; no error value is surfaced to the caller. -/
theorem error_redirect_ignored :
    ∀ (e d : String) (rs : List HttpRequest),
      awaitCode (⟨"/cb", [("error", e), ("error_description", d)]⟩ :: rs)
        = awaitCode rs := by
  intro e d rs
  rfl

/-- C7: for every token that does not consist of exactly three dot-separated
segments, the patient extraction returns `none` and no exception reaches the
caller: `_extract_patient` answers `Except.ok none` with the session
untouched, and the fhir_textual decode block only writes the malformed-token
message. -/
theorem extract_malformed_returns_none :
    ∀ (s : Session) (tok : String) (d : Except String String),
      s.token = some tok → (pySplit tok).length ≠ 3 →
      _extract_patient s = (Except.ok none, s) ∧
      decodeBlockLogs tok d = [malformedMsg] := by
  intro s tok d hs hlen
  constructor
  · simp [_extract_patient, hs]
  · simp [decodeBlockLogs, if_neg hlen]

/-- C7 witness: a one-segment token yields `none` without an exception. -/
theorem extract_malformed_returns_none_witness :
    (pySplit "not-a-jwt").length ≠ 3 ∧
    _extract_patient ⟨some "not-a-jwt", none, none⟩
      = (Except.ok none, ⟨some "not-a-jwt", none, none⟩) ∧
    decodeBlockLogs "not-a-jwt" (Except.ok "p") = [malformedMsg] :=
  ⟨by decide,
    (extract_malformed_returns_none ⟨some "not-a-jwt", none, none⟩ "not-a-jwt"
      (Except.ok "p") rfl (by decide)).1,
    (extract_malformed_returns_none ⟨some "not-a-jwt", none, none⟩ "not-a-jwt"
      (Except.ok "p") rfl (by decide)).2⟩

/-- C8: for every configuration with its (always configured, non-empty)
redirect URI and scope, the authorization URL carries all required query
parameters — `response_type=code`, `client_id`, `redirect_uri`, `scope`,
`audience`, `code_challenge`, `code_challenge_method`, `state` — and the
`code_challenge_method` is always `S256`. -/
theorem authorization_url_has_required_params :
    ∀ (cfg : OAuthConfig) (challenge st : String),
      cfg.redirect_uri ≠ "" → cfg.scope ≠ "" →
      ((create_authorization_url cfg challenge st).lookup "response_type"
          = some "code")
      ∧ ((create_authorization_url cfg challenge st).lookup "client_id"
          = some cfg.client_id)
      ∧ ((create_authorization_url cfg challenge st).lookup "redirect_uri"
          = some cfg.redirect_uri)
      ∧ ((create_authorization_url cfg challenge st).lookup "scope"
          = some cfg.scope)
      ∧ ((create_authorization_url cfg challenge st).lookup "audience"
          = some cfg.audience)
      ∧ ((create_authorization_url cfg challenge st).lookup "code_challenge"
          = some challenge)
      ∧ ((create_authorization_url cfg challenge st).lookup
            "code_challenge_method" = some "S256")
      ∧ ((create_authorization_url cfg challenge st).lookup "state"
          = some st) := by
  intro cfg challenge st h1 h2
  unfold create_authorization_url
  rw [if_neg h1, if_neg h2]
  exact ⟨rfl, rfl, rfl, rfl, rfl, rfl, rfl, rfl⟩

/-- C8 witness: the default configuration of src/smart_auth.py. -/
theorem authorization_url_has_required_params_witness :
    defaultConfig.redirect_uri ≠ "" ∧ defaultConfig.scope ≠ "" ∧
    ((create_authorization_url defaultConfig "CH" "ST").lookup
        "code_challenge_method" = some "S256") ∧
    ((create_authorization_url defaultConfig "CH" "ST").lookup "state"
        = some "ST") :=
  ⟨by decide, by decide,
    (authorization_url_has_required_params defaultConfig "CH" "ST"
      (by decide) (by decide)).2.2.2.2.2.2.1,
    (authorization_url_has_required_params defaultConfig "CH" "ST"
      (by decide) (by decide)).2.2.2.2.2.2.2⟩

/-- C9: logout clears the entire session: token, id token and patient
reference are all `none` afterwards, i.e. the session equals the
process-start session, whatever it held before. -/
theorem logout_clears_session : ∀ s : Session, logout s = initSession := by
  intro s
  rfl

/-- C10: for a non-empty token the masking helper returns exactly the first
`n` characters (all of them when the token is shorter) followed by the
truncation indicator, and for an empty token it returns the literal
`"<none>"`. -/
theorem mask_masks :
    ∀ (tok : String) (n : Nat),
      (tok ≠ "" → _mask tok n = String.mk (tok.data.take n) ++ "…") ∧
      _mask "" n = "<none>" := by
  intro tok n
  refine ⟨fun h => ?_, rfl⟩
  unfold _mask
  rw [if_neg h, String.take_eq]

/-- C10 witness: a two-character token masked to three characters keeps the
indicator. -/
theorem mask_masks_witness :
    (("ab" : String) ≠ "" ∧ _mask "ab" 3 = String.mk ("ab".data.take 3) ++ "…")
    ∧ _mask "" 5 = "<none>" :=
  ⟨⟨by decide, (mask_masks "ab" 3).1 (by decide)⟩, (mask_masks "" 5).2⟩
